import Mathlib

/-
Verification of the callback-platform lifecycle orchestrator
(src/backend/app.py) against its natural-language specification.

The Python module is shallowly embedded: the sqlite `callbacks` and
`verification_codes` tables become lists of records, ISO-8601 timestamps
become natural-number seconds (string comparison on a fixed ISO format
agrees with chronological order), and each state-mutating function
becomes a pure function from database states to database states.
External collaborators (Twilio network calls, reCAPTCHA, rate limiter)
enter as explicit parameters describing their observable outcome.
-/

namespace CallbackPlatform

/-- A row of the `callbacks` table, with the columns the lifecycle
functions read and write (src/backend/app.py, table `callbacks`). -/
structure CallbackRow where
  request_id : String
  visitor_name : String
  visitor_phone : String
  request_status : String
  status_message : Option String
  call_sid : Option String
  sms_sid : Option String
  retry_count : Nat
  max_retries : Nat
  retry_at : Option Nat
  last_retry_at : Option Nat
  created_at : Nat
  updated_at : Nat
deriving Repr, DecidableEq

/-- A row of the `verification_codes` table (src/backend/app.py). -/
structure VerificationCode where
  id : Nat
  request_id : String
  channel : String
  code : String
  contact : String
  attempts : Nat
  verified : Bool
  created_at : Nat
  expires_at : Nat
deriving Repr, DecidableEq

/-- `ORDER BY created_at DESC LIMIT 1`: the element with the greatest
`created` value, the earlier row winning ties. -/
def pick_latest {α : Type} (created : α → Nat) : List α → Option α
  | [] => none
  | v :: vs =>
    match pick_latest created vs with
    | none => some v
    | some w => if created v < created w then some w else some v

/-- Status of a request in a database state (the first row with the id). -/
def status_of (db : List CallbackRow) (request_id : String) : Option String :=
  (db.find? fun row => row.request_id == request_id).map CallbackRow.request_status

/-- Status message of a request in a database state. -/
def message_of (db : List CallbackRow) (request_id : String) : Option (Option String) :=
  (db.find? fun row => row.request_id == request_id).map CallbackRow.status_message

/-- `update_callback_status` (app.py:1893): one unconditional UPDATE that
overwrites status, message, timestamp and both provider references on
every row with the given request id.  The Python signature defaults
`call_sid` and `sms_sid` to `None`. -/
def update_callback_status (db : List CallbackRow) (request_id status : String)
    (message : Option String) (call_sid sms_sid : Option String) (now : Nat) :
    List CallbackRow :=
  db.map fun row =>
    if row.request_id == request_id then
      { row with request_status := status, status_message := message,
                 updated_at := now, call_sid := call_sid, sms_sid := sms_sid }
    else row

/-- `calculate_retry_delay` (app.py:1921): `min(60 * (5 ** retry_count), 900)`. -/
def calculate_retry_delay (retry_count : Nat) : Nat :=
  min (60 * 5 ^ retry_count) 900

/-- `schedule_retry` (app.py:1937): set the retry counter, the due time
`now + delay`, the last-retry time, and status `retry_scheduled`. -/
def schedule_retry (db : List CallbackRow) (request_id : String)
    (retry_count now : Nat) : List CallbackRow :=
  let delay_seconds := calculate_retry_delay retry_count
  db.map fun row =>
    if row.request_id == request_id then
      { row with retry_count := retry_count,
                 retry_at := some (now + delay_seconds),
                 last_retry_at := some now,
                 request_status := "retry_scheduled",
                 status_message := some ("Retry " ++ toString retry_count ++
                   " scheduled in " ++ toString delay_seconds ++ "s"),
                 updated_at := now }
    else row

/-- `mark_as_dead_letter` (app.py:1988): set status `dead_letter`. -/
def mark_as_dead_letter (db : List CallbackRow) (request_id reason : String)
    (now : Nat) : List CallbackRow :=
  db.map fun row =>
    if row.request_id == request_id then
      { row with request_status := "dead_letter",
                 status_message := some reason,
                 updated_at := now }
    else row

/-- The failure classification of `twilio_status_callback` (app.py:3167):
no-answer, busy, explicit failure, or a `completed` signal whose duration
is below the 20-second meaningful-conversation threshold. -/
def is_failure_outcome (call_status : String) (duration_seconds : Nat) : Bool :=
  (call_status == "no-answer" || call_status == "busy" || call_status == "failed")
    || (call_status == "completed" && duration_seconds < 20)

/-- The state-changing core of `twilio_status_callback` (app.py:3105):
a long-enough `completed` records `completed`; a failure outcome reads the
row, increments the retry counter, and either schedules a retry or moves
the request to the dead-letter queue; any other provider status is
ignored.  No branch consults the current `request_status`. -/
def twilio_status_callback (db : List CallbackRow) (request_id call_status : String)
    (duration_seconds now : Nat) : List CallbackRow :=
  if call_status == "completed" && 20 ≤ duration_seconds then
    update_callback_status db request_id "completed"
      (some "Call completed successfully") none none now
  else if is_failure_outcome call_status duration_seconds then
    match db.find? (fun row => row.request_id == request_id) with
    | some row =>
      let new_retry_count := row.retry_count + 1
      if new_retry_count ≤ row.max_retries then
        schedule_retry db request_id new_retry_count now
      else
        mark_as_dead_letter db request_id
          ("Max retries (" ++ toString row.max_retries ++ ") exhausted after "
            ++ call_status) now
    | none =>
      update_callback_status db request_id "failed"
        (some ("Call " ++ call_status)) none none now
  else
    db

/-- A sequence of provider outcome callbacks applied in order. -/
def run_outcomes (db : List CallbackRow) (request_id : String)
    (outcomes : List (String × Nat)) (now : Nat) : List CallbackRow :=
  outcomes.foldl (fun d o => twilio_status_callback d request_id o.1 o.2 now) db

/-- The row written by `schedule_retry` for a matched row. -/
def sched_row (r : CallbackRow) (n now : Nat) : CallbackRow :=
  { r with retry_count := n,
           retry_at := some (now + calculate_retry_delay n),
           last_retry_at := some now,
           request_status := "retry_scheduled",
           status_message := some ("Retry " ++ toString n ++ " scheduled in "
             ++ toString (calculate_retry_delay n) ++ "s"),
           updated_at := now }

/-- The row written by `mark_as_dead_letter` via the status callback. -/
def dead_row (r : CallbackRow) (s : String) (now : Nat) : CallbackRow :=
  { r with request_status := "dead_letter",
           status_message := some ("Max retries (" ++ toString r.max_retries
             ++ ") exhausted after " ++ s),
           updated_at := now }

lemma failure_outcome_not_success (s : String) (d : Nat)
    (hf : is_failure_outcome s d = true) :
    (s == "completed" && decide (20 ≤ d)) = false := by
  simp only [is_failure_outcome, Bool.or_eq_true, Bool.and_eq_true, beq_iff_eq,
    decide_eq_true_eq] at hf
  rcases hf with ((h | h) | h) | ⟨h, hd⟩ <;> subst h
  · simp
  · simp
  · simp
  · have hnd : ¬ (20 ≤ d) := by omega
    simp [hnd]

lemma schedule_retry_singleton (r : CallbackRow) (id : String) (n now : Nat)
    (hid : r.request_id = id) :
    schedule_retry [r] id n now = [sched_row r n now] := by
  subst hid
  simp [schedule_retry, sched_row]

lemma mark_as_dead_letter_singleton (r : CallbackRow) (id reason : String)
    (now : Nat) (hid : r.request_id = id) :
    mark_as_dead_letter [r] id reason now =
      [{ r with request_status := "dead_letter", status_message := some reason,
                updated_at := now }] := by
  subst hid
  simp [mark_as_dead_letter]

lemma twilio_failure_row (r : CallbackRow) (id s : String) (d now : Nat)
    (hid : r.request_id = id) (hf : is_failure_outcome s d = true) :
    twilio_status_callback [r] id s d now =
      if r.retry_count + 1 ≤ r.max_retries then [sched_row r (r.retry_count + 1) now]
      else [dead_row r s now] := by
  subst hid
  simp only [twilio_status_callback, failure_outcome_not_success s d hf,
    Bool.false_eq_true, if_false, hf, if_true, List.find?, beq_self_eq_true]
  by_cases hle : r.retry_count + 1 ≤ r.max_retries
  · rw [if_pos hle, if_pos hle,
      schedule_retry_singleton r r.request_id (r.retry_count + 1) now rfl]
  · rw [if_neg hle, if_neg hle,
      mark_as_dead_letter_singleton r r.request_id _ now rfl]
    rfl

lemma status_of_singleton (r : CallbackRow) (id : String) (hid : r.request_id = id) :
    status_of [r] id = some r.request_status := by
  subst hid
  simp [status_of, List.find?]

/-- A fresh request used to evaluate the first-retry delay for C2. -/
def c2row : CallbackRow :=
  ⟨"r2", "Ann", "+13217047403", "calling", none, none, none, 0, 3,
    none, none, 0, 0⟩

/-- C2: the retry delay actually used.  `twilio_status_callback` passes the
new, 1-based retry number to `schedule_retry`, which feeds it unchanged to
`calculate_retry_delay`; the first retry is therefore delayed
`min(60 * 5^1, 900) = 300` seconds — the first failure at time 100 yields
`next_retry_at = 400` — not the 60 seconds the function's own docstring
("Retry 1: 60 seconds") and the specification promise. -/
theorem calculate_retry_delay_first_retry_is_300 :
    calculate_retry_delay 1 = 300 ∧ calculate_retry_delay 2 = 900 ∧
      calculate_retry_delay 3 = 900 ∧ calculate_retry_delay 1 ≠ 60 ∧
      (twilio_status_callback [c2row] "r2" "no-answer" 0 100).map CallbackRow.retry_at
        = [some 400] := by
  decide

/-- C3: a request with `max_retries = 3` and a fresh retry counter that
receives four consecutive failure outcomes is in `retry_scheduled` after
each of the first three and in `dead_letter` after the fourth. -/
theorem fourth_failure_dead_letters (r : CallbackRow) (o1 o2 o3 o4 : String × Nat)
    (now : Nat) (hrc : r.retry_count = 0) (hmr : r.max_retries = 3)
    (h1 : is_failure_outcome o1.1 o1.2 = true)
    (h2 : is_failure_outcome o2.1 o2.2 = true)
    (h3 : is_failure_outcome o3.1 o3.2 = true)
    (h4 : is_failure_outcome o4.1 o4.2 = true) :
    status_of (run_outcomes [r] r.request_id [o1] now) r.request_id
        = some "retry_scheduled" ∧
    status_of (run_outcomes [r] r.request_id [o1, o2] now) r.request_id
        = some "retry_scheduled" ∧
    status_of (run_outcomes [r] r.request_id [o1, o2, o3] now) r.request_id
        = some "retry_scheduled" ∧
    status_of (run_outcomes [r] r.request_id [o1, o2, o3, o4] now) r.request_id
        = some "dead_letter" := by
  have s1 : twilio_status_callback [r] r.request_id o1.1 o1.2 now
      = [sched_row r 1 now] := by
    rw [twilio_failure_row r r.request_id o1.1 o1.2 now rfl h1, hrc, hmr]
    simp
  have s2 : twilio_status_callback [sched_row r 1 now] r.request_id o2.1 o2.2 now
      = [sched_row (sched_row r 1 now) 2 now] := by
    rw [twilio_failure_row (sched_row r 1 now) r.request_id o2.1 o2.2 now rfl h2]
    simp [sched_row, hmr]
  have s3 : twilio_status_callback [sched_row (sched_row r 1 now) 2 now]
      r.request_id o3.1 o3.2 now
      = [sched_row (sched_row (sched_row r 1 now) 2 now) 3 now] := by
    rw [twilio_failure_row (sched_row (sched_row r 1 now) 2 now) r.request_id
      o3.1 o3.2 now rfl h3]
    simp [sched_row, hmr]
  have s4 : twilio_status_callback
      [sched_row (sched_row (sched_row r 1 now) 2 now) 3 now]
      r.request_id o4.1 o4.2 now
      = [dead_row (sched_row (sched_row (sched_row r 1 now) 2 now) 3 now) o4.1 now] := by
    rw [twilio_failure_row (sched_row (sched_row (sched_row r 1 now) 2 now) 3 now)
      r.request_id o4.1 o4.2 now rfl h4]
    simp [sched_row, hmr]
  refine ⟨?_, ?_, ?_, ?_⟩
  · rw [run_outcomes, List.foldl, List.foldl, s1,
      status_of_singleton (sched_row r 1 now) r.request_id rfl]
    rfl
  · rw [run_outcomes, List.foldl, List.foldl, List.foldl, s1, s2,
      status_of_singleton (sched_row (sched_row r 1 now) 2 now) r.request_id rfl]
    rfl
  · rw [run_outcomes, List.foldl, List.foldl, List.foldl, List.foldl, s1, s2, s3,
      status_of_singleton (sched_row (sched_row (sched_row r 1 now) 2 now) 3 now)
        r.request_id rfl]
    rfl
  · rw [run_outcomes, List.foldl, List.foldl, List.foldl, List.foldl, List.foldl,
      s1, s2, s3, s4,
      status_of_singleton
        (dead_row (sched_row (sched_row (sched_row r 1 now) 2 now) 3 now) o4.1 now)
        r.request_id rfl]
    rfl

/-- The concrete request used to witness C3. -/
def c3row : CallbackRow :=
  ⟨"r1", "Ann", "+13217047403", "calling", none, some "CA1", none, 0, 3,
    none, none, 0, 0⟩

/-- Witness for C3: four failed outcomes on a fresh request. -/
theorem fourth_failure_dead_letters_witness :
    status_of (run_outcomes [c3row] c3row.request_id [("no-answer", 0)] 100)
        c3row.request_id = some "retry_scheduled" ∧
    status_of (run_outcomes [c3row] c3row.request_id
        [("no-answer", 0), ("busy", 0)] 100) c3row.request_id
        = some "retry_scheduled" ∧
    status_of (run_outcomes [c3row] c3row.request_id
        [("no-answer", 0), ("busy", 0), ("failed", 0)] 100) c3row.request_id
        = some "retry_scheduled" ∧
    status_of (run_outcomes [c3row] c3row.request_id
        [("no-answer", 0), ("busy", 0), ("failed", 0), ("completed", 5)] 100)
        c3row.request_id = some "dead_letter" :=
  fourth_failure_dead_letters c3row ("no-answer", 0) ("busy", 0) ("failed", 0)
    ("completed", 5) 100 rfl rfl rfl rfl rfl rfl

/-- Modelled from the spec (§4.4): the declared edge set of the lifecycle
state machine, written down solely to compare the code's observable
transitions against the spec's graph.  Terminal states (`completed`,
`dead_letter`, `cancelled`) have no outgoing edges. -/
def spec_allowed_transition (src tgt : String) : Bool :=
  (src == "pending" && (tgt == "verified" || tgt == "cancelled")) ||
  (src == "verified" && (tgt == "calling" || tgt == "cancelled")) ||
  (src == "calling" && (tgt == "completed" || tgt == "failed" ||
      tgt == "sms_sent" || tgt == "cancelled")) ||
  (src == "failed" && (tgt == "retry_scheduled" || tgt == "dead_letter")) ||
  (src == "retry_scheduled" && tgt == "calling")

lemma mem_update_fields (db : List CallbackRow) (request_id status : String)
    (message call_sid sms_sid : Option String) (now : Nat) (r : CallbackRow)
    (hmem : r ∈ update_callback_status db request_id status message call_sid sms_sid now)
    (hid : r.request_id = request_id) :
    r.request_status = status ∧ r.status_message = message ∧
      r.call_sid = call_sid ∧ r.sms_sid = sms_sid ∧ r.updated_at = now := by
  rcases List.mem_map.mp hmem with ⟨a, ha, hra⟩
  by_cases h : (a.request_id == request_id) = true
  · rw [if_pos h] at hra
    subst hra
    exact ⟨rfl, rfl, rfl, rfl, rfl⟩
  · rw [if_neg h] at hra
    subst hra
    exact absurd (by simp [hid]) h

/-- The request used in the C1 counterexample: already in the terminal
status `completed`. -/
def c1row : CallbackRow :=
  ⟨"c1", "Ann", "+13217047403", "completed", none, some "CA9", none, 0, 3,
    none, none, 0, 0⟩

/-- C1 counterexample: `completed → pending` is outside the §4.4 edge set,
yet `update_callback_status` records it: the write neither fails nor leaves
the state unchanged. -/
theorem illegal_transition_recorded_cex :
    spec_allowed_transition "completed" "pending" = false ∧
    status_of [c1row] "c1" = some "completed" ∧
    status_of (update_callback_status [c1row] "c1" "pending" none none none 5) "c1"
      = some "pending" := by
  refine ⟨rfl, rfl, rfl⟩

/-- C1 (amended): the central status writer validates nothing: every row
matching the request id gets the requested status written over whatever
status it previously held, so any transition at all can be recorded. -/
theorem update_callback_status_unvalidated (db : List CallbackRow)
    (request_id status : String) (message call_sid sms_sid : Option String)
    (now : Nat) (r : CallbackRow)
    (hmem : r ∈ update_callback_status db request_id status message call_sid sms_sid now)
    (hid : r.request_id = request_id) :
    r.request_status = status :=
  (mem_update_fields db request_id status message call_sid sms_sid now r hmem hid).1

/-- The row produced by the unvalidated write in the C1 witness. -/
def c1upd : CallbackRow :=
  { c1row with request_status := "pending", status_message := none,
               call_sid := none, sms_sid := none, updated_at := 5 }

/-- Witness for C1 (amended): the terminal request is rewritten to `pending`. -/
theorem update_callback_status_unvalidated_witness : c1upd.request_status = "pending" :=
  update_callback_status_unvalidated [c1row] "c1" "pending" none none none 5 c1upd
    (by decide) (by decide)

/-- The lookup of `verify_code` and `send_sms_verification` (app.py:1539,
app.py:1448): most recent unverified code for the (request, channel) pair. -/
def most_recent_unverified (db : List VerificationCode) (request_id channel : String) :
    Option VerificationCode :=
  pick_latest VerificationCode.created_at
    (db.filter fun v => v.request_id == request_id && v.channel == channel && !v.verified)

/-- Return value of `verify_code` together with the database it leaves. -/
structure VerifyResult where
  db : List VerificationCode
  success : Bool
  error : Option String
deriving Repr, DecidableEq

/-- The per-row effect of `UPDATE verification_codes SET attempts = attempts + 1
WHERE id = ?` (app.py:1568). -/
def vc_inc (row : VerificationCode) : VerificationCode → VerificationCode :=
  fun v => if v.id == row.id then { v with attempts := v.attempts + 1 } else v

/-- The per-row effect of `UPDATE verification_codes SET verified = TRUE
WHERE id = ?` (app.py:1583). -/
def vc_mark (row : VerificationCode) : VerificationCode → VerificationCode :=
  fun v => if v.id == row.id then { v with verified := true } else v

/-- `verify_code` (app.py:1522): look up the most recent unverified code for
the channel; reject when none, expired, or already attempted 3 times;
otherwise increment the attempt counter and commit it, then fail on
mismatch or mark the code verified on match. -/
def verify_code (db : List VerificationCode) (request_id channel code : String)
    (now : Nat) : VerifyResult :=
  match most_recent_unverified db request_id channel with
  | none => ⟨db, false, some "No verification code found"⟩
  | some row =>
    if row.expires_at < now then ⟨db, false, some "Verification code expired"⟩
    else if 3 ≤ row.attempts then ⟨db, false, some "Too many verification attempts"⟩
    else if code ≠ row.code then
      ⟨db.map (vc_inc row), false, some "Invalid verification code"⟩
    else
      ⟨(db.map (vc_inc row)).map (vc_mark row), true, none⟩

lemma pick_latest_mem {α : Type} (created : α → Nat) :
    ∀ (l : List α) (v : α), pick_latest created l = some v → v ∈ l
  | [], v, h => by simp [pick_latest] at h
  | a :: as, v, h => by
    simp only [pick_latest] at h
    cases hp : pick_latest created as with
    | none =>
      rw [hp] at h
      injection h with h
      exact h ▸ List.mem_cons_self a as
    | some w =>
      rw [hp] at h
      dsimp only at h
      by_cases hc : created a < created w
      · rw [if_pos hc] at h
        injection h with h
        exact List.mem_cons_of_mem a (h ▸ pick_latest_mem created as w hp)
      · rw [if_neg hc] at h
        injection h with h
        exact h ▸ List.mem_cons_self a as

lemma most_recent_unverified_spec (db : List VerificationCode)
    (request_id channel : String) (v : VerificationCode)
    (h : most_recent_unverified db request_id channel = some v) :
    v ∈ db ∧ v.request_id = request_id ∧ v.channel = channel ∧ v.verified = false := by
  have hm := pick_latest_mem VerificationCode.created_at _ v h
  have hf := List.mem_filter.mp hm
  refine ⟨hf.1, ?_⟩
  have hp := hf.2
  simp only [Bool.and_eq_true, beq_iff_eq, Bool.not_eq_true'] at hp
  exact ⟨hp.1.1, hp.1.2, hp.2⟩

lemma vc_inc_id (row v : VerificationCode) : (vc_inc row v).id = v.id := by
  unfold vc_inc
  by_cases h : (v.id == row.id) = true
  · rw [if_pos h]
  · rw [if_neg h]

lemma vc_inc_verified (row v : VerificationCode) :
    (vc_inc row v).verified = v.verified := by
  unfold vc_inc
  by_cases h : (v.id == row.id) = true
  · rw [if_pos h]
  · rw [if_neg h]

lemma vc_inc_self (row : VerificationCode) :
    vc_inc row row = { row with attempts := row.attempts + 1 } := by
  simp [vc_inc]

lemma vc_mark_id (row v : VerificationCode) : (vc_mark row v).id = v.id := by
  unfold vc_mark
  by_cases h : (v.id == row.id) = true
  · rw [if_pos h]
  · rw [if_neg h]

lemma vc_mark_attempts (row v : VerificationCode) :
    (vc_mark row v).attempts = v.attempts := by
  unfold vc_mark
  by_cases h : (v.id == row.id) = true
  · rw [if_pos h]
  · rw [if_neg h]

lemma vc_mark_verified_of (row v : VerificationCode) (h : v.verified = true) :
    (vc_mark row v).verified = true := by
  unfold vc_mark
  by_cases h2 : (v.id == row.id) = true
  · rw [if_pos h2]
  · rw [if_neg h2]
    exact h

lemma vc_mark_verified_of_id (row v : VerificationCode) (h : v.id = row.id) :
    (vc_mark row v).verified = true := by
  simp [vc_mark, h]

/-- C4: (1) the matching lookup never returns an already-verified code, so a
code row is accepted at most once; (2) a code already attempted 3 times is
rejected with the too-many-attempts error whatever code is submitted;
(3) whenever the matching check is reached the attempt counter is
incremented and committed; (4) on success the matched code is marked
verified; (5) `verify_code` never clears a verified flag. -/
theorem verify_code_claim (db : List VerificationCode)
    (request_id channel code : String) (now : Nat) :
    (∀ row, most_recent_unverified db request_id channel = some row →
      row.verified = false) ∧
    (∀ row, most_recent_unverified db request_id channel = some row →
      ¬ row.expires_at < now → 3 ≤ row.attempts →
      verify_code db request_id channel code now =
        ⟨db, false, some "Too many verification attempts"⟩) ∧
    (∀ row, most_recent_unverified db request_id channel = some row →
      ¬ row.expires_at < now → row.attempts < 3 →
      ∃ v ∈ (verify_code db request_id channel code now).db,
        v.id = row.id ∧ v.attempts = row.attempts + 1) ∧
    ((verify_code db request_id channel code now).success = true →
      ∃ row, most_recent_unverified db request_id channel = some row ∧
        row.verified = false ∧
        ∀ v ∈ (verify_code db request_id channel code now).db,
          v.id = row.id → v.verified = true) ∧
    (∀ v ∈ db, v.verified = true →
      ∃ w ∈ (verify_code db request_id channel code now).db,
        w.id = v.id ∧ w.verified = true) := by
  refine ⟨?_, ?_, ?_, ?_, ?_⟩
  · intro row h
    exact (most_recent_unverified_spec db request_id channel row h).2.2.2
  · intro row hlook hexp hatt
    simp only [verify_code, hlook]
    rw [if_neg hexp, if_pos hatt]
  · intro row hlook hexp hlt
    have hnot3 : ¬ 3 ≤ row.attempts := by omega
    have hrow := most_recent_unverified_spec db request_id channel row hlook
    simp only [verify_code, hlook]
    rw [if_neg hexp, if_neg hnot3]
    by_cases hc : code ≠ row.code
    · rw [if_pos hc]
      refine ⟨vc_inc row row, List.mem_map_of_mem (vc_inc row) hrow.1, ?_, ?_⟩
      · rw [vc_inc_self]
      · rw [vc_inc_self]
    · rw [if_neg hc]
      refine ⟨vc_mark row (vc_inc row row),
        List.mem_map_of_mem (vc_mark row) (List.mem_map_of_mem (vc_inc row) hrow.1),
        ?_, ?_⟩
      · rw [vc_mark_id, vc_inc_id]
      · rw [vc_mark_attempts, vc_inc_self]
  · intro hs
    cases hlook : most_recent_unverified db request_id channel with
    | none => simp [verify_code, hlook] at hs
    | some row =>
      by_cases hexp : row.expires_at < now
      · simp [verify_code, hlook, hexp] at hs
      by_cases hatt : 3 ≤ row.attempts
      · simp [verify_code, hlook, hexp, hatt] at hs
      by_cases hc : code ≠ row.code
      · simp [verify_code, hlook, hexp, hatt, hc] at hs
      refine ⟨row, rfl,
        (most_recent_unverified_spec db request_id channel row hlook).2.2.2, ?_⟩
      intro v hv hvid
      simp only [verify_code, hlook] at hv
      rw [if_neg hexp, if_neg hatt, if_neg hc] at hv
      rcases List.mem_map.mp hv with ⟨u, hu, huv⟩
      subst huv
      rw [vc_mark_id] at hvid
      exact vc_mark_verified_of_id row u hvid
  · intro v hv hver
    cases hlook : most_recent_unverified db request_id channel with
    | none =>
      refine ⟨v, ?_, rfl, hver⟩
      simp only [verify_code, hlook]
      exact hv
    | some row =>
      by_cases hexp : row.expires_at < now
      · refine ⟨v, ?_, rfl, hver⟩
        simp only [verify_code, hlook]
        rw [if_pos hexp]
        exact hv
      by_cases hatt : 3 ≤ row.attempts
      · refine ⟨v, ?_, rfl, hver⟩
        simp only [verify_code, hlook]
        rw [if_neg hexp, if_pos hatt]
        exact hv
      by_cases hc : code ≠ row.code
      · refine ⟨vc_inc row v, ?_, vc_inc_id row v, ?_⟩
        · simp only [verify_code, hlook]
          rw [if_neg hexp, if_neg hatt, if_pos hc]
          exact List.mem_map_of_mem (vc_inc row) hv
        · rw [vc_inc_verified]
          exact hver
      · refine ⟨vc_mark row (vc_inc row v), ?_, ?_, ?_⟩
        · simp only [verify_code, hlook]
          rw [if_neg hexp, if_neg hatt, if_neg hc]
          exact List.mem_map_of_mem (vc_mark row) (List.mem_map_of_mem (vc_inc row) hv)
        · rw [vc_mark_id, vc_inc_id]
        · apply vc_mark_verified_of
          rw [vc_inc_verified]
          exact hver

/-- The code row used to witness C4: three attempts already recorded. -/
def c4row : VerificationCode :=
  ⟨7, "r1", "sms", "123456", "+13217047403", 3, false, 0, 600⟩

/-- Witness for C4: the 4th attempt against a thrice-tried code is rejected
with the too-many-attempts error even though the submitted code matches. -/
theorem verify_code_claim_witness :
    verify_code [c4row] "r1" "sms" "123456" 10 =
      ⟨[c4row], false, some "Too many verification attempts"⟩ :=
  (verify_code_claim [c4row] "r1" "sms" "123456" 10).2.1 c4row (by decide)
    (by decide) (by decide)

lemma update_status_singleton (r : CallbackRow) (id status : String)
    (message call_sid sms_sid : Option String) (now : Nat) (hid : r.request_id = id) :
    update_callback_status [r] id status message call_sid sms_sid now =
      [{ r with request_status := status, status_message := message,
                updated_at := now, call_sid := call_sid, sms_sid := sms_sid }] := by
  subst hid
  simp [update_callback_status]

/-- The request used in the C6 counterexample: already cancelled. -/
def c6row : CallbackRow :=
  ⟨"c6", "Bo", "+15550001111", "cancelled", some "Cancelled by user",
    some "CA2", none, 0, 3, none, none, 0, 0⟩

/-- C6 counterexample: the outcome callback on a cancelled request is not a
no-op: a long `completed` outcome overwrites `cancelled` with `completed`,
and a failure outcome moves the cancelled request to `retry_scheduled`. -/
theorem cancelled_outcome_not_noop_cex :
    status_of [c6row] "c6" = some "cancelled" ∧
    status_of (twilio_status_callback [c6row] "c6" "completed" 45 9) "c6"
      = some "completed" ∧
    status_of (twilio_status_callback [c6row] "c6" "no-answer" 0 9) "c6"
      = some "retry_scheduled" := by
  refine ⟨rfl, rfl, rfl⟩

/-- C6 (amended): `twilio_status_callback` never consults the stored status,
so callbacks on a cancelled request are applied like any other: a long
`completed` outcome rewrites the status to `completed`. -/
theorem cancelled_outcome_applied (r : CallbackRow) (d now : Nat)
    (hc : r.request_status = "cancelled") (hd : 20 ≤ d) :
    status_of (twilio_status_callback [r] r.request_id "completed" d now)
      r.request_id = some "completed" := by
  have hcond : ("completed" == "completed" && decide (20 ≤ d)) = true := by
    simp [hd]
  simp only [twilio_status_callback]
  rw [if_pos hcond,
    update_status_singleton r r.request_id "completed"
      (some "Call completed successfully") none none now rfl]
  simp [status_of, List.find?]

/-- Witness for C6 (amended): the cancelled request of the counterexample. -/
theorem cancelled_outcome_applied_witness :
    status_of (twilio_status_callback [c6row] c6row.request_id "completed" 45 9)
      c6row.request_id = some "completed" :=
  cancelled_outcome_applied c6row 45 9 rfl (by decide)

/-- The exception classes relevant to the provider-call retry wrapper.
`twilioRest` carries the provider error code and covers permanent
rejections (21211 invalid destination number, 20005 suspended account) as
well as transient ones (20429 rate limit); `other` stands for any
exception outside the caught tuple. -/
inductive PyError
  | connectionError
  | timeout
  | nameResolutionError
  | twilioRest (code : Nat)
  | other (message : String)
deriving Repr, DecidableEq

/-- Membership in the except-tuple `(ConnectionError, Timeout,
NameResolutionError, TwilioRestException)` of app.py:1401 and app.py:465. -/
def caught_retry_classes : PyError → Bool
  | .connectionError => true
  | .timeout => true
  | .nameResolutionError => true
  | .twilioRest _ => true
  | .other _ => false

/-- The loop of `retry_with_exponential_backoff` (app.py:1377), parameterized
by the outcome of each invocation of `func`.  Returns the final outcome,
the number of invocations made, and the `time.sleep` delays in order.
`remaining` counts the retries left (`max_retries - attempt`). -/
def retry_loop (f : Nat → Except PyError String) (base_delay max_delay : Nat) :
    Nat → Nat → Except PyError String × Nat × List Nat
  | attempt, 0 =>
    match f attempt with
    | .ok a => (.ok a, 1, [])
    | .error e => (.error e, 1, [])
  | attempt, rem + 1 =>
    match f attempt with
    | .ok a => (.ok a, 1, [])
    | .error e =>
      if caught_retry_classes e = false then (.error e, 1, [])
      else
        let rest := retry_loop f base_delay max_delay (attempt + 1) rem
        (rest.1, rest.2.1 + 1, min (base_delay * 2 ^ attempt) max_delay :: rest.2.2)

/-- `retry_with_exponential_backoff` (app.py:1377):
`for attempt in range(max_retries + 1)` over the loop above. -/
def retry_with_exponential_backoff (f : Nat → Except PyError String)
    (max_retries base_delay max_delay : Nat) :
    Except PyError String × Nat × List Nat :=
  retry_loop f base_delay max_delay 0 max_retries

/-- Return value of `TwilioProvider.make_call`. -/
structure CallResult where
  success : Bool
  call_sid : Option String
  message : String
deriving Repr, DecidableEq

/-- `TwilioProvider.make_call` (app.py:438): wraps the provider call in
`retry_with_exponential_backoff(max_retries=3, base_delay=1, max_delay=5)`
and converts exceptions of the caught tuple into a structured failure. -/
def TwilioProvider_make_call (callApi : Nat → Except PyError String) :
    Except PyError CallResult :=
  match (retry_with_exponential_backoff callApi 3 1 5).1 with
  | .ok sid => .ok ⟨true, some sid, "Call initiated"⟩
  | .error e =>
    if caught_retry_classes e then .ok ⟨false, none, "Call failed after retries"⟩
    else .error e

/-- C7 counterexample: a permanent provider rejection (TwilioRestException
21211, invalid destination number) is retried like a transient fault: the
wrapped call is invoked four times — not three — with sleeps of 1, 2 and 4
seconds, before the failure is returned. -/
theorem permanent_rejection_retried_cex :
    (retry_with_exponential_backoff (fun _ => .error (.twilioRest 21211)) 3 1 5).2.1
      = 4 ∧
    (retry_with_exponential_backoff (fun _ => .error (.twilioRest 21211)) 3 1 5).2.2
      = [1, 2, 4] ∧
    (retry_with_exponential_backoff (fun _ => .error (.twilioRest 21211)) 3 1 5).1
      = .error (.twilioRest 21211) := by
  refine ⟨rfl, rfl, rfl⟩

/-- C7 (amended): under `(3, 1, 5)` the wrapper makes up to four invocations
(one initial plus three retries) with delays min(2^k, 5) = 1, 2, 4 seconds,
and it treats every class of the caught tuple alike — TwilioRestException
provider rejections included; only exceptions outside the tuple escape
after a single invocation, and `make_call` converts exhausted retries into
a structured failure. -/
theorem retry_wrapper_behavior (e : PyError) :
    (caught_retry_classes e = true →
      (retry_with_exponential_backoff (fun _ => .error e) 3 1 5).2.1 = 4 ∧
      (retry_with_exponential_backoff (fun _ => .error e) 3 1 5).2.2 = [1, 2, 4] ∧
      (retry_with_exponential_backoff (fun _ => .error e) 3 1 5).1 = .error e ∧
      TwilioProvider_make_call (fun _ => .error e)
        = .ok ⟨false, none, "Call failed after retries"⟩) ∧
    (caught_retry_classes e = false →
      (retry_with_exponential_backoff (fun _ => .error e) 3 1 5).2.1 = 1 ∧
      (retry_with_exponential_backoff (fun _ => .error e) 3 1 5).1 = .error e) := by
  constructor
  · intro h
    refine ⟨?_, ?_, ?_, ?_⟩ <;>
      simp [retry_with_exponential_backoff, retry_loop, TwilioProvider_make_call, h]
  · intro h
    refine ⟨?_, ?_⟩ <;>
      simp [retry_with_exponential_backoff, retry_loop, h]

/-- Witness for C7 (amended): a suspended-account rejection is invoked four
times; an exception outside the caught tuple is invoked once. -/
theorem retry_wrapper_behavior_witness :
    (retry_with_exponential_backoff (fun _ => .error (.twilioRest 20005)) 3 1 5).2.1
      = 4 ∧
    (retry_with_exponential_backoff (fun _ => .error (.other "boom")) 3 1 5).2.1
      = 1 :=
  ⟨((retry_wrapper_behavior (.twilioRest 20005)).1 (by decide)).1,
   ((retry_wrapper_behavior (.other "boom")).2 (by decide)).1⟩

/-- Outcome of `send_sms_verification`: the verification-code table it
leaves, the returned (success, code, error) triple, and the SMS bodies
actually handed to the provider. -/
structure SmsSendResult where
  db : List VerificationCode
  success : Bool
  code : Option String
  error : Option String
  sent : List String
deriving Repr, DecidableEq

/-- The fresh-code tail of `send_sms_verification` (app.py:1475): INSERT a
new code row (attempts 0, unverified, 10-minute expiry) and dispatch the
SMS; `twilio_ok` abstracts the wrapped Twilio send succeeding. -/
def send_new_code (db : List VerificationCode) (request_id phone : String)
    (now next_id : Nat) (code : String) (twilio_ok : Bool) : SmsSendResult :=
  let db1 := db ++ [⟨next_id, request_id, "sms", code, phone, 0, false, now, now + 600⟩]
  if twilio_ok = false then
    ⟨db1, false, none, some "SMS delivery failed after retries", []⟩
  else
    ⟨db1, true, some code, none,
      ["Your verification code is: " ++ code ++ ". Valid for 10 minutes."]⟩

/-- `send_sms_verification` (app.py:1422), control flow from the source:
check the SMS concurrency gate; look up the newest unverified `sms` code;
when one exists and is unexpired the code logs reuse and calls
`conn.close()`, after which the unconditional INSERT (app.py:1477) executes
on the closed connection and raises `sqlite3.ProgrammingError`, caught by
the outer handler — so the reuse path returns failure without storing or
sending anything; otherwise a fresh code row is inserted and dispatched. -/
def send_sms_verification (db : List VerificationCode) (request_id phone : String)
    (now next_id : Nat) (fresh_code : String) (concurrency_ok twilio_ok : Bool) :
    SmsSendResult :=
  if concurrency_ok = false then
    ⟨db, false, none, some "Concurrency limit reached", []⟩
  else
    match most_recent_unverified db request_id "sms" with
    | some row =>
      if now < row.expires_at then
        ⟨db, false, none, some "Cannot operate on a closed database.", []⟩
      else
        send_new_code db request_id phone now next_id fresh_code twilio_ok
    | none => send_new_code db request_id phone now next_id fresh_code twilio_ok

/-- The unexpired, unverified code on file in the C8 failing input. -/
def c8row : VerificationCode :=
  ⟨3, "r8", "sms", "654321", "+15550002222", 0, false, 100, 700⟩

/-- C8: evaluating `send_sms_verification` at the failing input — a request
that already has an unexpired unverified SMS code — shows the reuse path
raising on the closed connection: the call returns failure, stores
nothing, and dispatches no message, instead of re-sending the existing
code as the function's own comments promise. -/
theorem sms_code_reuse_broken :
    most_recent_unverified [c8row] "r8" "sms" = some c8row ∧
    (200 : Nat) < c8row.expires_at ∧
    send_sms_verification [c8row] "r8" "+15550002222" 200 9 "111111" true true =
      ⟨[c8row], false, none, some "Cannot operate on a closed database.", []⟩ := by
  refine ⟨rfl, by decide, rfl⟩

/-- Result of the SMS verification endpoint handler. -/
structure EndpointResult where
  codes : List VerificationCode
  callbacks : List CallbackRow
  http_status : Nat
  ok : Bool
deriving Repr, DecidableEq

/-- The `/verify_code` handler (app.py:2636): validate inputs, run
`verify_code` on the `sms` channel, and on success update the callback
status to `verified` through `update_callback_status` with the defaulted
provider-reference arguments (`None`, `None`); every COMMIT_MODE branch
performs this identical update. -/
def verify_code_endpoint (codes : List VerificationCode) (callbacks : List CallbackRow)
    (request_id code : String) (now : Nat) : EndpointResult :=
  if request_id = "" then ⟨codes, callbacks, 400, false⟩
  else if code = "" then ⟨codes, callbacks, 400, false⟩
  else if (verify_code codes request_id "sms" code now).success = false then
    ⟨(verify_code codes request_id "sms" code now).db, callbacks, 400, false⟩
  else
    ⟨(verify_code codes request_id "sms" code now).db,
     update_callback_status callbacks request_id "verified" (some "Verified via SMS")
       none none now,
     200, true⟩

/-- C9: every invocation of the status writer overwrites the stored
`call_sid` and `sms_sid` with exactly the arguments passed, and the
verified-status update made by the verification endpoint passes the
defaults, erasing any previously stored provider references. -/
theorem update_status_overwrites_sids (db : List CallbackRow)
    (request_id status : String) (message call_sid sms_sid : Option String)
    (now : Nat) :
    (∀ r ∈ update_callback_status db request_id status message call_sid sms_sid now,
       r.request_id = request_id → r.call_sid = call_sid ∧ r.sms_sid = sms_sid) ∧
    (∀ codes callbacks code,
       (verify_code_endpoint codes callbacks request_id code now).ok = true →
       ∀ r ∈ (verify_code_endpoint codes callbacks request_id code now).callbacks,
         r.request_id = request_id →
         r.request_status = "verified" ∧ r.call_sid = none ∧ r.sms_sid = none) := by
  constructor
  · intro r hr hid
    have h := mem_update_fields db request_id status message call_sid sms_sid now r hr hid
    exact ⟨h.2.2.1, h.2.2.2.1⟩
  · intro codes callbacks code hok r hr hid
    by_cases h1 : request_id = ""
    · simp [verify_code_endpoint, h1] at hok
    by_cases h2 : code = ""
    · simp [verify_code_endpoint, h1, h2] at hok
    by_cases h3 : (verify_code codes request_id "sms" code now).success = false
    · simp [verify_code_endpoint, h1, h2, h3] at hok
    · simp only [verify_code_endpoint, if_neg h1, if_neg h2, if_neg h3] at hr
      have h := mem_update_fields callbacks request_id "verified"
        (some "Verified via SMS") none none now r hr hid
      exact ⟨h.1, h.2.2.1, h.2.2.2.1⟩

/-- The callback row holding provider references in the C9 witness. -/
def c9cb : CallbackRow :=
  ⟨"r9", "Cy", "+15550003333", "pending", none, some "CA5", some "SM5", 0, 3,
    none, none, 0, 0⟩

/-- The matching verification code in the C9 witness. -/
def c9code : VerificationCode :=
  ⟨4, "r9", "sms", "222333", "+15550003333", 0, false, 0, 600⟩

/-- The row left by the endpoint's verified-status update in the C9 witness. -/
def c9upd : CallbackRow :=
  { c9cb with request_status := "verified",
              status_message := some "Verified via SMS",
              call_sid := none, sms_sid := none, updated_at := 50 }

/-- Witness for C9: a successful verification wipes the stored `CA5`/`SM5`
provider references while writing `verified`. -/
theorem update_status_overwrites_sids_witness :
    c9upd.request_status = "verified" ∧ c9upd.call_sid = none ∧ c9upd.sms_sid = none :=
  (update_status_overwrites_sids [c9cb] "r9" "verified" none none none 50).2
    [c9code] [c9cb] "222333" (by decide) c9upd (by decide) (by decide)

/-- `cleanup_stuck_requests` (app.py:758): before the duplicate check,
requests stuck in `calling` for longer than `timeout_minutes` are forced
to `failed`. -/
def cleanup_stuck_requests (db : List CallbackRow) (now timeout_minutes : Nat) :
    List CallbackRow :=
  db.map fun row =>
    if row.request_status == "calling" &&
        decide (row.created_at < now - timeout_minutes * 60) then
      { row with request_status := "failed",
                 status_message := some "Auto-cleared: stuck in calling status",
                 updated_at := now }
    else row

/-- The two tuple shapes `check_duplicate_request` can return: the normal
paths return four values (app.py:843, 845), the exception handler returns
three (app.py:850). -/
inductive DupResult
  | quad (is_duplicate : Bool) (message : String)
      (existing_request_id : Option String) (remaining_minutes : Nat)
  | triple (is_duplicate : Bool) (message : String)
      (existing_request_id : Option String)
deriving Repr, DecidableEq

/-- The status filter of the duplicate query (app.py:826):
`request_status IN ('pending', 'calling', 'connected', 'verified')`. -/
def duplicate_window_statuses (s : String) : Bool :=
  s == "pending" || s == "calling" || s == "connected" || s == "verified"

/-- `check_duplicate_request` (app.py:797): reap stuck requests, then select
the most recent request from the same phone created inside the window with
a status in the filter above; `store_error` abstracts the query raising,
in which case the except-branch fails open with only three values. -/
def check_duplicate_request (db : List CallbackRow) (phone : String)
    (now time_window_minutes : Nat) (store_error : Bool) :
    List CallbackRow × DupResult :=
  if store_error then (db, .triple false "" none)
  else
    let db1 := cleanup_stuck_requests db now 5
    let cutoff := now - time_window_minutes * 60
    match pick_latest CallbackRow.created_at
        (db1.filter fun row => row.visitor_phone == phone &&
          decide (cutoff < row.created_at) &&
          duplicate_window_statuses row.request_status) with
    | some row =>
      (db1, .quad true ("You already have a " ++ row.request_status ++
          " callback request. Please wait.") (some row.request_id)
        (time_window_minutes - (now - row.created_at) / 60))
    | none => (db1, .quad false "" none 0)

/-- The auto-cancel UPDATE of the duplicate layer (app.py:2762). -/
def auto_cancel (db : List CallbackRow) (existing_id : String) (now : Nat) :
    List CallbackRow :=
  db.map fun row =>
    if row.request_id == existing_id then
      { row with request_status := "cancelled",
                 status_message := some "Auto-cancelled: user submitted new request",
                 updated_at := now }
    else row

/-- An inbound submission: the request fields `request_callback` reads. -/
structure Submission where
  honeypot : String
  recaptcha_ok : Bool
  visitor_number : String
  visitor_name : String
  visitor_email : String
deriving Repr, DecidableEq

/-- The JSON/HTTP response of the submission handler. -/
structure HttpResponse where
  http_status : Nat
  success : Bool
  error : Option String
  request_id : Option String
deriving Repr, DecidableEq

/-- The fresh pending row inserted at app.py:2815 (`max_retries` defaults
to 3 in the schema). -/
def new_request_row (new_request_id name phone : String) (now : Nat) : CallbackRow :=
  ⟨new_request_id, name, phone, "pending", none, none, none, 0, 3, none, none,
    now, now⟩

/-- `request_callback` (app.py:2694): the gate chain in source order —
honeypot (silent accept), reCAPTCHA, required phone, phone validation
(`phone_valid` is the normalizer's result), daily cost cap, duplicate
check with auto-cancel of the prior request, fingerprint throttle — then
the INSERT of the new pending request.  A store error in the duplicate
check yields the 3-tuple, whose unpacking into four names raises a
`ValueError` caught by the outer handler (app.py:2857). -/
def request_callback (db : List CallbackRow) (sub : Submission)
    (phone_valid : Option String) (within_limits fingerprint_ok store_error : Bool)
    (new_request_id : String) (now : Nat) : HttpResponse × List CallbackRow :=
  if sub.honeypot ≠ "" then (⟨200, true, none, none⟩, db)
  else if sub.recaptcha_ok = false then
    (⟨400, false, some "CAPTCHA verification failed. Please try again.", none⟩, db)
  else if sub.visitor_number = "" then
    (⟨400, false, some "Phone number is required", none⟩, db)
  else
    match phone_valid with
    | none => (⟨400, false, some "Invalid phone number", none⟩, db)
    | some phone =>
      if within_limits = false then
        (⟨503, false, some "Daily limit reached", none⟩, db)
      else
        match check_duplicate_request db phone now 60 store_error with
        | (_, .triple _ _ _) =>
          (⟨500, false, some "Internal server error", none⟩, db)
        | (db1, .quad is_dup _ existing _) =>
          let db2 :=
            if is_dup then
              match existing with
              | some existing_id => auto_cancel db1 existing_id now
              | none => db1
            else db1
          if fingerprint_ok = false then
            (⟨429, false, some "Too many requests", none⟩, db2)
          else
            (⟨200, true, none, some new_request_id⟩,
             db2 ++ [new_request_row new_request_id sub.visitor_name phone now])

/-- C10: the duplicate-check except-branch returns three values where every
non-error path returns four; unpacking the 3-tuple into four names in the
submission handler raises, so a store error during the duplicate check
fails the whole submission with the internal-server-error response and
leaves the store unchanged — the check does not fail open. -/
theorem dup_store_error_fails_closed (db : List CallbackRow) (sub : Submission)
    (phone new_request_id : String) (fingerprint_ok : Bool) (now : Nat)
    (hhp : sub.honeypot = "") (hrc : sub.recaptcha_ok = true)
    (hnum : sub.visitor_number ≠ "") :
    check_duplicate_request db phone now 60 true = (db, .triple false "" none) ∧
    (∃ d a b c e, check_duplicate_request db phone now 60 false = (d, .quad a b c e)) ∧
    request_callback db sub (some phone) true fingerprint_ok true new_request_id now
      = (⟨500, false, some "Internal server error", none⟩, db) := by
  refine ⟨rfl, ?_, ?_⟩
  · simp only [check_duplicate_request]
    rw [if_neg (by decide : ¬ (false = true))]
    split
    · exact ⟨_, _, _, _, _, rfl⟩
    · exact ⟨_, _, _, _, _, rfl⟩
  · have hdup : check_duplicate_request db phone now 60 true
        = (db, DupResult.triple false "" none) := rfl
    simp [request_callback, hhp, hrc, hnum, hdup]

/-- The submission of the C10 witness. -/
def c10sub : Submission := ⟨"", true, "(321) 704-7403", "Dee", ""⟩

/-- Witness for C10: a store error during the duplicate check on an empty
store turns the submission into a 500 response. -/
theorem dup_store_error_fails_closed_witness :
    request_callback [] c10sub (some "+13217047403") true true true "n1" 0
      = (⟨500, false, some "Internal server error", none⟩, []) :=
  (dup_store_error_fails_closed [] c10sub "+13217047403" "n1" true 0 rfl rfl
    (by decide)).2.2

/-- Modelled from the spec (§4.4): the terminal statuses of the lifecycle
graph; every other status is non-terminal.  Used only to compare the
duplicate-suppression behaviour against the spec's wording. -/
def spec_terminal_status (s : String) : Bool :=
  s == "completed" || s == "dead_letter" || s == "cancelled"

/-- The prior request of the C5 counterexample: non-terminal
(`retry_scheduled`), created 300 seconds before the new submission. -/
def c5row : CallbackRow :=
  ⟨"old1", "Eve", "+13217047403", "retry_scheduled",
    some "Retry 1 scheduled in 300s", none, none, 1, 3, some 1600, some 1000,
    1000, 1000⟩

/-- The new submission of the C5 scenarios. -/
def c5sub : Submission := ⟨"", true, "(321) 704-7403", "Eve", ""⟩

/-- C5 counterexample: a prior non-terminal request in `retry_scheduled`,
well inside the 60-minute window, is not auto-cancelled — the duplicate
query matches only pending/calling/connected/verified — while the new
submission still proceeds. -/
theorem duplicate_skips_retry_scheduled_cex :
    spec_terminal_status "retry_scheduled" = false ∧
    status_of [c5row] "old1" = some "retry_scheduled" ∧
    (request_callback [c5row] c5sub (some "+13217047403") true true false
        "new1" 1300).1.http_status = 200 ∧
    status_of (request_callback [c5row] c5sub (some "+13217047403") true true false
        "new1" 1300).2 "old1" = some "retry_scheduled" := by
  refine ⟨rfl, rfl, rfl, rfl⟩

/-- C5 (amended): only a prior request whose status is in the query's
pending/calling/connected/verified filter is auto-cancelled (with reason
"Auto-cancelled: user submitted new request") while the new submission
proceeds; a `calling` row must additionally be younger than the 5-minute
stale-reap cutoff or it is reaped to `failed` before the check. -/
theorem duplicate_auto_cancels (prior : CallbackRow) (sub : Submission)
    (phone new_request_id : String) (now : Nat)
    (hhp : sub.honeypot = "") (hrc : sub.recaptcha_ok = true)
    (hnum : sub.visitor_number ≠ "")
    (hphone : prior.visitor_phone = phone)
    (hstat : duplicate_window_statuses prior.request_status = true)
    (hwin : now - 60 * 60 < prior.created_at)
    (hstale : prior.request_status = "calling" → ¬ prior.created_at < now - 300)
    (hne : prior.request_id ≠ new_request_id) :
    (request_callback [prior] sub (some phone) true true false
        new_request_id now).1.http_status = 200 ∧
    (request_callback [prior] sub (some phone) true true false
        new_request_id now).1.success = true ∧
    status_of (request_callback [prior] sub (some phone) true true false
        new_request_id now).2 prior.request_id = some "cancelled" ∧
    message_of (request_callback [prior] sub (some phone) true true false
        new_request_id now).2 prior.request_id
      = some (some "Auto-cancelled: user submitted new request") ∧
    status_of (request_callback [prior] sub (some phone) true true false
        new_request_id now).2 new_request_id = some "pending" := by
  have hclean : cleanup_stuck_requests [prior] now 5 = [prior] := by
    by_cases hcall : prior.request_status = "calling"
    · have hnl := hstale hcall
      simp [cleanup_stuck_requests, hnl]
    · simp [cleanup_stuck_requests, hcall]
  have hpred : (prior.visitor_phone == phone &&
      decide (now - 60 * 60 < prior.created_at) &&
      duplicate_window_statuses prior.request_status) = true := by
    simp [hphone, hwin, hstat]
  have hdup : check_duplicate_request [prior] phone now 60 false
      = ([prior], DupResult.quad true ("You already have a " ++
          prior.request_status ++ " callback request. Please wait.")
          (some prior.request_id) (60 - (now - prior.created_at) / 60)) := by
    simp only [check_duplicate_request]
    rw [if_neg (by decide : ¬ (false = true)), hclean]
    simp [List.filter, hpred, pick_latest]
  have hcanc : auto_cancel [prior] prior.request_id now
      = [{ prior with
             request_status := "cancelled",
             status_message := some "Auto-cancelled: user submitted new request",
             updated_at := now }] := by
    simp [auto_cancel]
  have hne2 : (prior.request_id == new_request_id) = false := by
    simp [hne]
  have hmain : request_callback [prior] sub (some phone) true true false
      new_request_id now
      = (⟨200, true, none, some new_request_id⟩,
         [{ prior with
              request_status := "cancelled",
              status_message := some "Auto-cancelled: user submitted new request",
              updated_at := now },
          new_request_row new_request_id sub.visitor_name phone now]) := by
    simp [request_callback, hhp, hrc, hnum, hdup, hcanc]
  rw [hmain]
  refine ⟨rfl, rfl, ?_, ?_, ?_⟩
  · simp [status_of, List.find?]
  · simp [message_of, List.find?]
  · simp [status_of, List.find?, hne2, new_request_row]

/-- The prior pending request of the C5 witness. -/
def c5prior : CallbackRow :=
  ⟨"old2", "Eve", "+13217047403", "pending", none, none, none, 0, 3, none, none,
    1000, 1000⟩

/-- Witness for C5 (amended): a pending request from the same phone five
minutes earlier is cancelled and the new submission is accepted. -/
theorem duplicate_auto_cancels_witness :
    (request_callback [c5prior] c5sub (some "+13217047403") true true false
        "new2" 1300).1.http_status = 200 ∧
    (request_callback [c5prior] c5sub (some "+13217047403") true true false
        "new2" 1300).1.success = true ∧
    status_of (request_callback [c5prior] c5sub (some "+13217047403") true true false
        "new2" 1300).2 c5prior.request_id = some "cancelled" ∧
    message_of (request_callback [c5prior] c5sub (some "+13217047403") true true false
        "new2" 1300).2 c5prior.request_id
      = some (some "Auto-cancelled: user submitted new request") ∧
    status_of (request_callback [c5prior] c5sub (some "+13217047403") true true false
        "new2" 1300).2 "new2" = some "pending" :=
  duplicate_auto_cancels c5prior c5sub "+13217047403" "new2" 1300 rfl rfl
    (by decide) rfl (by decide) (by decide) (by decide) (by decide)

end CallbackPlatform
